import Mathlib

/-!
Verification of the Splunk backends of `tools/sigma/backends/splunk.py`.

Shallow embedding of the two backend classes (`SplunkBackend`,
`SplunkXMLBackend`) and proofs about their rendering behavior.

Python values appearing in rule lists are modelled by `SigmaValue`: strings,
integers, and an opaque `vother` constructor carrying the Python `str()`
representation of any other value (e.g. a nested list).

Stateful pieces (the XML accumulator `self.queries`, and the in-place
mutation of the aggregation object in `generateAggregation`) are modelled by
explicit state passing: mutable state goes in and the updated state comes
out of the function.
-/

namespace Sigma2Splunk

/-- A scalar (or non-scalar) value occurring in a sigma list node.
`vother` stands for any Python value that is neither `str` nor `int`;
its argument is the `str()` rendering of that value. -/
inductive SigmaValue where
  | vstr (s : String)
  | vint (n : Int)
  | vother (srepr : String)
  deriving DecidableEq, Repr

/-- Holds exactly when the Python check `type(val) in {str, int}` holds. -/
def SigmaValue.isStrOrInt : SigmaValue → Bool
  | .vstr _ => true
  | .vint _ => true
  | .vother _ => false

/-- The error outcomes of the embedded code.  `typeConversion` is the
`TypeError` raised on bad list values, `fieldMappingType` the `TypeError`
raised on a bad field-mapping result, `unboundLocal` Python's
`UnboundLocalError`, and `notImplemented` the `NotImplementedError` raised
for the `near` aggregation. -/
inductive GenError where
  | typeConversion
  | fieldMappingType
  | unboundLocal
  | notImplemented
  deriving DecidableEq, Repr

/-!
Value escaping.

`splunk.py` defines

  `reEscape = re.compile('("|(?<!\\\\)\\\\(?![*?\\\\]))')`

i.e. the regex matches a double quote, or a backslash that is neither
preceded by a backslash nor followed by `*`, `?` or `\`.  The substitution
applied with it (`cleanValue` of the base class, whose source is outside
this repository; the spec describes it as backslash-escaping each match)
prepends a backslash to each match.  Every match is a single character, so
the scan is modelled character by character, carrying the previous
character of the original string for the look-behind.
-/

/-- Does the look-ahead `[*?\\]` succeed at the head of `rest`? -/
def wildcardNext : List Char → Bool
  | [] => false
  | c :: _ => c = '*' || c = '?' || c = '\\'

/-- One left-to-right pass of `reEscape.sub`, with `p` the character of the
original string just before the current position (`none` at the start). -/
def cleanValueAux : Option Char → List Char → List Char
  | _, [] => []
  | p, c :: rest =>
    if c = '"' then '\\' :: c :: cleanValueAux (some c) rest
    else if c = '\\' ∧ p ≠ some '\\' ∧ wildcardNext rest = false then
      '\\' :: c :: cleanValueAux (some c) rest
    else c :: cleanValueAux (some c) rest

/-- The function `cleanValue` of the base backend applied with `SplunkBackend.reEscape`:
escape each quote, and each backslash that is neither preceded by a
backslash nor followed by a wildcard or backslash. -/
def cleanValue (s : String) : String :=
  ⟨cleanValueAux none s.data⟩

/-- The escaping procedure as the claim words it: backslash-escape each
literal quote character and each literal backslash that is *not already
followed by* a wildcard or backslash character — with no condition on the
preceding character.  This definition follows the claim's words and is
compared against `cleanValue`, which follows the source's regex. -/
def claimEscape : List Char → List Char
  | [] => []
  | c :: rest =>
    if c = '"' then '\\' :: c :: claimEscape rest
    else if c = '\\' ∧ wildcardNext rest = false then
      '\\' :: c :: claimEscape rest
    else c :: claimEscape rest

/-- Modelled from the spec: `generateValueNode` lives in the base backend
class `SingleTextQueryBackend`, which is not part of this repository's
sources.  Per the spec, a string value is escaped and wrapped in the
value-quoting template `valueExpression = "\"%s\""`, while a numeric value
renders unquoted (§8: `x=1`).  A non-scalar value falls back to escaping
and quoting its `str()` form. -/
def generateValueNode : SigmaValue → String
  | .vstr s => "\"" ++ cleanValue s ++ "\""
  | .vint n => toString n
  | .vother r => "\"" ++ cleanValue r ++ "\""

/-!
List-node rendering.

`SplunkBackend.generateMapItemListNode` checks that every value has Python
type `str` or `int` and raises `TypeError` otherwise, then joins
`key=value` comparisons with `" OR "` inside parentheses.
`SplunkXMLBackend.generateMapItemListNode` performs the same join but has
no type check.
-/

/-- Embeds `SplunkBackend.generateMapItemListNode(self, key, value)`. -/
def SplunkBackend.generateMapItemListNode (key : String) (value : List SigmaValue) :
    Except GenError String :=
  if value.all SigmaValue.isStrOrInt then
    .ok ("(" ++ String.intercalate " OR "
      (value.map fun item => key ++ "=" ++ generateValueNode item) ++ ")")
  else
    .error .typeConversion

/-- Embeds `SplunkXMLBackend.generateMapItemListNode(self, key, value)`: identical
join, but without the type check. -/
def SplunkXMLBackend.generateMapItemListNode (key : String) (value : List SigmaValue) :
    Except GenError String :=
  .ok ("(" ++ String.intercalate " OR "
    (value.map fun item => key ++ "=" ++ generateValueNode item) ++ ")")

/-!
Aggregation rendering.

`generateAggregation` receives the parsed aggregation object.  The Splunk
backend *mutates* it (`agg.aggfunc_notrans = 'dc'`) when a group field is
present and the untranslated function name is `count`; the mutation is made
explicit by returning the updated object alongside the rendered clause.
-/

/-- The parsed aggregation function constant (`agg.aggfunc`), an enum in the
external parser; only `near` is distinguished by the backends. -/
inductive AggFunc where
  | count | min | max | avg | sum | dc | near
  deriving DecidableEq, Repr

/-- The fields of the parsed aggregation object that the backends read:
`aggfunc`, `aggfunc_notrans`, `aggfield`, `groupfield`, `cond_op`,
`condition`. -/
structure AggregationSpec where
  aggfunc : AggFunc
  aggfunc_notrans : String
  aggfield : Option String
  groupfield : Option String
  cond_op : String
  condition : String
  deriving DecidableEq, Repr

/-- Embeds `SplunkBackend.generateAggregation(self, agg)`.  The returned pair is
(rendered clause, aggregation object after the call) — the second component
records the in-place mutation of `aggfunc_notrans`. -/
def SplunkBackend.generateAggregation :
    Option AggregationSpec → Except GenError (String × Option AggregationSpec)
  | none => .ok ("", none)
  | some agg =>
    if agg.aggfunc = .near then .error .notImplemented
    else
      match agg.groupfield with
      | none =>
        .ok (" | stats " ++ agg.aggfunc_notrans ++ "(" ++ agg.aggfield.getD "" ++
          ") as val | search val " ++ agg.cond_op ++ " " ++ agg.condition, some agg)
      | some g =>
        let agg' : AggregationSpec :=
          if agg.aggfunc_notrans = "count" then
            ⟨agg.aggfunc, "dc", agg.aggfield, agg.groupfield, agg.cond_op, agg.condition⟩
          else agg
        .ok (" | stats " ++ agg'.aggfunc_notrans ++ "(" ++ agg'.aggfield.getD "" ++
          ") as val by " ++ g ++ " | search val " ++ agg'.cond_op ++ " " ++
          agg'.condition, some agg')

/-- Embeds `SplunkXMLBackend.generateAggregation(self, agg)`: `near` degrades to an
empty clause, and no substitution (hence no mutation) is performed. -/
def SplunkXMLBackend.generateAggregation :
    Option AggregationSpec → Except GenError (String × Option AggregationSpec)
  | none => .ok ("", none)
  | some agg =>
    if agg.aggfunc = .near then .ok ("", some agg)
    else
      match agg.groupfield with
      | none =>
        .ok (" | stats " ++ agg.aggfunc_notrans ++ "(" ++ agg.aggfield.getD "" ++
          ") as val | search val " ++ agg.cond_op ++ " " ++ agg.condition, some agg)
      | some g =>
        .ok (" | stats " ++ agg.aggfunc_notrans ++ "(" ++ agg.aggfield.getD "" ++
          ") as val by " ++ g ++ " | search val " ++ agg.cond_op ++ " " ++
          agg.condition, some agg)

/-!
The per-rule driver, `SplunkBackend.generate`.

The driver resolves the rule's requested fields through the configuration's
field mapping, then iterates over the parsed top-level conditions.  The
`return result` statement sits *inside* the `for parsed in
sigmaparser.condparsed` loop, so the function returns during the first
iteration.  The local variable `mapped` is assigned only inside the
field-resolution loop (or set to `None` by the `except KeyError` handler),
so with a present-but-empty `fields` list the test `if mapped is not None`
raises `UnboundLocalError`.
-/

/-- The result of `sigmaparser.config.get_fieldmapping(field).resolve_fieldname(field)`:
a string, a list of strings, or anything else. -/
inductive Mapped where
  | mstr (s : String)
  | mlist (l : List String)
  | mother
  deriving DecidableEq, Repr

/-- Holds exactly when the mapping result is neither `str` nor `list`. -/
def Mapped.isOther : Mapped → Bool
  | .mstr _ => false
  | .mlist _ => false
  | .mother => true

/-- The columns a single mapping result contributes: a string appends one
column, a list is spliced in order. -/
def Mapped.columns : Mapped → List String
  | .mstr s => [s]
  | .mlist l => l
  | .mother => []

/-- The field-resolution loop of `SplunkBackend.generate`: walk the
requested fields, appending a string result as one column and extending
with a list result, and raising `TypeError` on anything else. -/
def resolveColumns : List String → (String → Mapped) → Except GenError (List String)
  | [], _ => .ok []
  | f :: rest, m =>
    match m f with
    | .mstr s => (resolveColumns rest m).map fun cols => s :: cols
    | .mlist l => (resolveColumns rest m).map fun cols => l ++ cols
    | .mother => .error .fieldMappingType

/-- Modelled from the spec: one parsed top-level condition, carrying the
results of the base class's `generateQuery`, `generateBefore` and
`generateAfter` (the base class `SingleTextQueryBackend` is not part of
this repository's sources; per the spec the driver composes
`preamble (if present) + condition text + suffix (if present)`). -/
structure TopCond where
  query : Option String
  before : Option String
  after : Option String
  deriving DecidableEq, Repr

/-- The composition performed in the loop body of `SplunkBackend.generate`:
`result = before` when present, then `+= query`, then `+= after`. -/
def composeResult (c : TopCond) : String :=
  c.before.getD "" ++ c.query.getD "" ++ c.after.getD ""

/-- The state of the Python local `mapped` when the condition loop is
reached: never assigned (empty `fields` list), set to `None` by the
`except KeyError` handler (no `fields` attribute), or holding the last
field's mapping result (necessarily a `str` or `list`). -/
inductive MappedState where
  | unbound
  | defaultNone
  | bound
  deriving DecidableEq, Repr

/-- The condition loop of `SplunkBackend.generate`.  The `return` inside
the loop makes only the first element relevant; reading `mapped` while
unbound raises `UnboundLocalError`. -/
def generateLoop (ms : MappedState) (fieldsClause : String) :
    List TopCond → Except GenError (Option String)
  | [] => .ok none
  | c :: _ =>
    match ms with
    | .unbound => .error .unboundLocal
    | .defaultNone => .ok (some (composeResult c))
    | .bound => .ok (some (composeResult c ++ fieldsClause))

/-- Embeds `SplunkBackend.generate(self, sigmaparser)`.  `fieldsAttr` is
`sigmaparser.parsedyaml["fields"]` (`none` when the key is absent, which
raises `KeyError` into the handler), `mapping` the configuration's field
mapping, `condparsed` the parsed top-level conditions.  The result is
`none` when the Python function falls off the loop and returns `None`. -/
def SplunkBackend.generate (fieldsAttr : Option (List String)) (mapping : String → Mapped)
    (condparsed : List TopCond) : Except GenError (Option String) :=
  match fieldsAttr with
  | none => generateLoop .defaultNone "" condparsed
  | some fl =>
    match resolveColumns fl mapping with
    | .error e => .error e
    | .ok cols =>
      let fieldsClause := " | table " ++ String.intercalate "," cols
      generateLoop (if fl.isEmpty then .unbound else .bound) fieldsClause condparsed

/-!
The XML document accumulator, `SplunkXMLBackend`.

The class attribute `queries` starts as the dashboard preamble; `generate`
appends one panel per parsed condition, entity-escaping `<` and `>` in the
query text only; `finalize` appends the document suffix and returns the
buffer.
-/

/-- The class attribute `SplunkXMLBackend.panel_pre`. -/
def panel_pre : String := "<row><panel><title>"

/-- The class attribute `SplunkXMLBackend.panel_inf`. -/
def panel_inf : String := "</title><table><search><query>"

/-- The class attribute `SplunkXMLBackend.panel_suf`. -/
def panel_suf : String :=
  "</query><earliest>$field1.earliest$</earliest><latest>$field1.latest$</latest>" ++
  "<sampleRatio>1</sampleRatio></search><option name=\"count\">20</option>" ++
  "<option name=\"dataOverlayMode\">none</option><option name=\"drilldown\">row</option>" ++
  "<option name=\"percentagesRow\">false</option><option name=\"refresh.display\">" ++
  "progressbar</option><option name=\"rowNumbers\">false</option>" ++
  "<option name=\"totalsRow\">false</option><option name=\"wrap\">true</option>" ++
  "</table></panel></row>"

/-- The class attribute `SplunkXMLBackend.dash_pre`. -/
def dash_pre : String :=
  "<form><label>MyDashboard</label><fieldset submitButton=\"false\">" ++
  "<input type=\"time\" token=\"field1\"><label></label><default>" ++
  "<earliest>-24h@h</earliest><latest>now</latest></default></input></fieldset>"

/-- The class attribute `SplunkXMLBackend.dash_suf`. -/
def dash_suf : String := "</form>"

/-- Embeds Python's `s.replace(c, r)` for a single-character needle: every
occurrence of `c` is replaced by `r`. -/
def replaceChar (s : String) (c : Char) (r : String) : String :=
  ⟨s.data.flatMap fun x => if x = c then r.data else [x]⟩

/-- The query escaping of `SplunkXMLBackend.generate`:
`query.replace("<", "&lt;")` then `.replace(">", "&gt;")`. -/
def escLtGt (q : String) : String :=
  replaceChar (replaceChar q '<' "&lt;") '>' "&gt;"

/-- The mutable state of a `SplunkXMLBackend` instance: the `queries`
buffer. -/
structure XMLState where
  queries : String
  deriving DecidableEq, Repr

/-- The initial buffer: the class attribute `queries = dash_pre`. -/
def initState : XMLState := ⟨dash_pre⟩

/-- The loop body of `SplunkXMLBackend.generate` for one parsed condition —
the accumulator's `appendRule`: when the query is not `None`, append
`panel_pre`, the rule name verbatim, `panel_inf`, the entity-escaped query,
and `panel_suf`. -/
def appendPanel (st : XMLState) (ruleName : String) (query : Option String) : XMLState :=
  match query with
  | none => st
  | some q => ⟨st.queries ++ panel_pre ++ ruleName ++ panel_inf ++ escLtGt q ++ panel_suf⟩

/-- Embeds `SplunkXMLBackend.generate(self, sigmaparser)`: iterate over the parsed
conditions, appending one panel each.  `ruleName` is
`self.getRuleName(sigmaparser)` (modelled from the spec: the mixin
supplying it is not part of this repository's sources). -/
def SplunkXMLBackend.generate (st : XMLState) (ruleName : String) :
    List (Option String) → XMLState
  | [] => st
  | q :: rest => SplunkXMLBackend.generate (appendPanel st ruleName q) ruleName rest

/-- Embeds `SplunkXMLBackend.finalize(self)`: append the document suffix and
return the buffer. -/
def SplunkXMLBackend.finalize (st : XMLState) : String :=
  st.queries ++ dash_suf

end Sigma2Splunk

namespace Sigma2Splunk

/-!
A positional reading of the escaper, used to state what `cleanValue` does:
each character is escaped or kept according to its immediate neighbors in
the original string.
-/

/-- What the substitution emits for one character `c` of the original
string, given the preceding character `p` and the following character `n`
(`none` at either end): a quote is backslash-escaped, a backslash is
backslash-escaped when it is neither preceded by a backslash nor followed
by `*`, `?` or `\`, and every other character is kept. -/
def escCharAt (p : Option Char) (c : Char) (n : Option Char) : List Char :=
  if c = '"' then ['\\', c]
  else if c = '\\' ∧ p ≠ some '\\' ∧ n ≠ some '*' ∧ n ≠ some '?' ∧ n ≠ some '\\' then
    ['\\', c]
  else [c]

/-- Pair every character of a list with its predecessor and successor;
`p` is the predecessor of the first element. -/
def neighborTriples (p : Option Char) : List Char → List (Option Char × Char × Option Char)
  | [] => []
  | c :: rest => (p, c, rest.head?) :: neighborTriples (some c) rest

end Sigma2Splunk

/-!
Theorems: the claims, settled against the embedding above.
-/

namespace Sigma2Splunk

/-- Helper: the condition loop of `SplunkBackend.generate` only inspects the
head of the condition list. -/
theorem generateLoop_cons (ms : MappedState) (fc : String) (c : TopCond) (rest : List TopCond) :
    generateLoop ms fc (c :: rest) = generateLoop ms fc [c] := by
  cases ms <;> rfl

/-- C1 counterexample: with two parsed top-level conditions whose queries
render as `q1` and `q2`, the single-query backend's `generate` returns the
first condition's composed text `q1`, not the last one's `q2` as the claim
states. -/
theorem c1_counterexample :
    SplunkBackend.generate none (fun _ => .mstr "A")
      [⟨some "q1", none, none⟩, ⟨some "q2", none, none⟩] = .ok (some "q1") ∧
    (Except.ok (some "q1") : Except GenError (Option String)) ≠ .ok (some "q2") := by
  refine ⟨rfl, ?_⟩
  simp

/-- C1 (amended): for a rule with several top-level conditions, `generate`
returns during the first loop iteration, so the result equals the result on
the first condition alone — composed as preamble + query + suffix (plus the
projection clause when fields were mapped) — and every later condition's
text is discarded. -/
theorem c1_first_condition_returned (fa : Option (List String)) (m : String → Mapped)
    (c : TopCond) (rest : List TopCond) :
    SplunkBackend.generate fa m (c :: rest) = SplunkBackend.generate fa m [c] ∧
    SplunkBackend.generate none m (c :: rest) = .ok (some (composeResult c)) := by
  constructor
  · cases fa with
    | none =>
      simp only [SplunkBackend.generate]
      exact generateLoop_cons _ _ _ _
    | some fl =>
      simp only [SplunkBackend.generate]
      cases resolveColumns fl m with
      | error e => rfl
      | ok cols => exact generateLoop_cons _ _ _ _
  · rfl

/-- C2 counterexample: the XML backend's `generateMapItemListNode` performs
no type check, so a list holding the non-scalar value `["b"]` (whose Python
`str()` form is `['b']`) renders successfully instead of failing with
`TypeConversionError`; the plain Splunk backend does fail on the same
input. -/
theorem c2_counterexample :
    SplunkXMLBackend.generateMapItemListNode "x" [.vstr "a", .vother "['b']"] =
      .ok "(x=\"a\" OR x=\"['b']\")" ∧
    SplunkBackend.generateMapItemListNode "x" [.vstr "a", .vother "['b']"] =
      .error .typeConversion := by
  exact ⟨rfl, rfl⟩

/-- C2 (amended): only the single-query `SplunkBackend` checks list-value
types — a list containing a value that is neither string nor number makes
its `generateMapItemListNode` fail with `TypeConversionError` (aborting
only that rule, the renderer being a pure function of the node) — while
`SplunkXMLBackend.generateMapItemListNode` never fails. -/
theorem c2_amended (key : String) (value : List SigmaValue)
    (h : ∃ v ∈ value, v.isStrOrInt = false) :
    SplunkBackend.generateMapItemListNode key value = .error .typeConversion ∧
    ∃ s, SplunkXMLBackend.generateMapItemListNode key value = .ok s := by
  constructor
  · have hall : value.all SigmaValue.isStrOrInt = false := by
      rcases h with ⟨v, hv, hbad⟩
      rw [Bool.eq_false_iff]
      intro hAll
      rw [List.all_eq_true] at hAll
      have := hAll v hv
      rw [hbad] at this
      exact Bool.false_ne_true this
    simp [SplunkBackend.generateMapItemListNode, hall]
  · exact ⟨_, rfl⟩

/-- C2 witness: the amended theorem applied at a concrete bad list. -/
theorem c2_amended_witness :
    SplunkBackend.generateMapItemListNode "x" [.vstr "a", .vother "oops"] =
      .error .typeConversion ∧
    ∃ s, SplunkXMLBackend.generateMapItemListNode "x" [.vstr "a", .vother "oops"] = .ok s :=
  c2_amended "x" [.vstr "a", .vother "oops"] ⟨.vother "oops", by simp, rfl⟩

/-- C3 counterexample: rendering `List{field:"x", values:["a","b",1]}` with
special list handling yields the OR-expansion wrapped in parentheses,
`(x="a" OR x="b" OR x=1)` — not exactly the bare text `x="a" OR x="b" OR
x=1` the claim states. -/
theorem c3_counterexample :
    SplunkBackend.generateMapItemListNode "x" [.vstr "a", .vstr "b", .vint 1] =
      .ok "(x=\"a\" OR x=\"b\" OR x=1)" ∧
    (Except.ok "(x=\"a\" OR x=\"b\" OR x=1)" : Except GenError String) ≠
      .ok "x=\"a\" OR x=\"b\" OR x=1" := by
  refine ⟨rfl, ?_⟩
  simp

/-- C3 (amended): with special list handling enabled,
`List{field:"x", values:["a","b",1]}` renders as the parenthesized
OR-expansion `(x="a" OR x="b" OR x=1)`: one equality comparison per value
joined with the `" OR "` token, the numeric value `1` left unquoted. -/
theorem c3_amended :
    SplunkBackend.generateMapItemListNode "x" [.vstr "a", .vstr "b", .vint 1] =
      .ok ("(" ++ "x=\"a\"" ++ " OR " ++ "x=\"b\"" ++ " OR " ++ "x=1" ++ ")") := by
  rfl

/-- C9: a rule carrying an empty `fields` list makes `generate` fail with
Python's `UnboundLocalError` (the local `mapped` is assigned only inside
the field loop or the `KeyError` handler), while a rule with no `fields`
attribute at all succeeds with no projection clause appended. -/
theorem c9_empty_fields_unbound :
    SplunkBackend.generate (some []) (fun _ => .mstr "A") [⟨some "q", none, none⟩] =
      .error .unboundLocal ∧
    SplunkBackend.generate none (fun _ => .mstr "A") [⟨some "q", none, none⟩] =
      .ok (some "q") := by
  exact ⟨rfl, rfl⟩

/-- Helper: `wildcardNext` looks only at the head character. -/
theorem wildcardNext_false_iff (l : List Char) :
    wildcardNext l = false ↔ (l.head? ≠ some '*' ∧ l.head? ≠ some '?' ∧ l.head? ≠ some '\\') := by
  cases l <;> simp [wildcardNext, and_assoc]

/-- Helper: the left-to-right scan of `reEscape.sub` emits, for each
character of the original string, exactly what `escCharAt` prescribes from
that character's neighbors. -/
theorem cleanValueAux_eq_triples (p : Option Char) (l : List Char) :
    cleanValueAux p l = ((neighborTriples p l).map fun t => escCharAt t.1 t.2.1 t.2.2).flatten := by
  induction l generalizing p with
  | nil => rfl
  | cons c rest ih =>
    simp only [cleanValueAux, neighborTriples, List.map_cons, List.flatten_cons, ih]
    by_cases hq : c = '"'
    · simp [hq, escCharAt]
    · by_cases hb : c = '\\' ∧ p ≠ some '\\' ∧ wildcardNext rest = false
      · have hw := (wildcardNext_false_iff rest).mp hb.2.2
        simp [hq, hb, escCharAt, hb.1, hb.2.1, hw.1, hw.2.1, hw.2.2]
      · have hnot : ¬(c = '\\' ∧ p ≠ some '\\' ∧ rest.head? ≠ some '*' ∧
            rest.head? ≠ some '?' ∧ rest.head? ≠ some '\\') := by
          intro hcontra
          exact hb ⟨hcontra.1, hcontra.2.1, (wildcardNext_false_iff rest).mpr hcontra.2.2⟩
        simp [hq, hb, escCharAt, hnot]

/-- C4 counterexample: on the three-character input `\\a` (backslash,
backslash, `a`), the source's single-pass substitution leaves the string
unchanged — the second backslash is preceded by a backslash, so the
regex's look-behind blocks the match — while the claim's wording (escape
every backslash not *followed* by a wildcard or backslash) would escape
that second backslash, producing `\\\a`.  The two behaviors differ. -/
theorem c4_counterexample :
    cleanValue "\\\\a" = "\\\\a" ∧
    String.mk (claimEscape "\\\\a".data) = "\\\\\\a" ∧
    ("\\\\a" : String) ≠ "\\\\\\a" := by
  refine ⟨rfl, rfl, ?_⟩
  decide

/-- C4 (amended): the escaping is a single-pass substitution that
backslash-escapes each literal quote character and each literal backslash
that is neither preceded by a backslash nor followed by a wildcard or
backslash character (each character's fate depending only on its immediate
neighbors in the original string), and the escaped result of a string
value is then wrapped in the value-quoting template `"%s"`. -/
theorem c4_amended (s : String) :
    cleanValue s = ⟨((neighborTriples none s.data).map fun t => escCharAt t.1 t.2.1 t.2.2).flatten⟩ ∧
    generateValueNode (.vstr s) = "\"" ++ cleanValue s ++ "\"" :=
  ⟨congrArg String.mk (cleanValueAux_eq_triples none s.data), rfl⟩

/-- C5: for an aggregation whose untranslated function is `count` (and not
`near`), the distinct-count-substituting `SplunkBackend` renders the
grouped clause with `dc` in place of `count`, while `SplunkXMLBackend`
renders it with `count` unchanged; without a group field neither backend
substitutes. -/
theorem c5_distinct_count_substitution (agg : AggregationSpec)
    (hc : agg.aggfunc_notrans = "count") (hn : agg.aggfunc ≠ .near) :
    (∀ g, agg.groupfield = some g →
      SplunkBackend.generateAggregation (some agg) =
        .ok (" | stats " ++ "dc" ++ "(" ++ agg.aggfield.getD "" ++ ") as val by " ++ g ++
          " | search val " ++ agg.cond_op ++ " " ++ agg.condition,
          some ⟨agg.aggfunc, "dc", agg.aggfield, agg.groupfield, agg.cond_op, agg.condition⟩) ∧
      SplunkXMLBackend.generateAggregation (some agg) =
        .ok (" | stats " ++ "count" ++ "(" ++ agg.aggfield.getD "" ++ ") as val by " ++ g ++
          " | search val " ++ agg.cond_op ++ " " ++ agg.condition, some agg)) ∧
    (agg.groupfield = none →
      SplunkBackend.generateAggregation (some agg) =
        .ok (" | stats " ++ "count" ++ "(" ++ agg.aggfield.getD "" ++
          ") as val | search val " ++ agg.cond_op ++ " " ++ agg.condition, some agg) ∧
      SplunkXMLBackend.generateAggregation (some agg) =
        .ok (" | stats " ++ "count" ++ "(" ++ agg.aggfield.getD "" ++
          ") as val | search val " ++ agg.cond_op ++ " " ++ agg.condition, some agg)) := by
  constructor
  · intro g hg
    constructor
    · simp [SplunkBackend.generateAggregation, hn, hg, hc]
    · simp [SplunkXMLBackend.generateAggregation, hn, hg, hc]
  · intro hg
    constructor
    · simp [SplunkBackend.generateAggregation, hn, hg, hc]
    · simp [SplunkXMLBackend.generateAggregation, hn, hg, hc]

/-- C5 witness: the substitution theorem applied at a concrete grouped
count aggregation. -/
theorem c5_witness :
    SplunkBackend.generateAggregation (some ⟨.count, "count", some "uid", some "host", ">", "5"⟩) =
      .ok (" | stats dc(uid) as val by host | search val > 5",
        some ⟨.count, "dc", some "uid", some "host", ">", "5"⟩) ∧
    SplunkXMLBackend.generateAggregation (some ⟨.count, "count", some "uid", some "host", ">", "5"⟩) =
      .ok (" | stats count(uid) as val by host | search val > 5",
        some ⟨.count, "count", some "uid", some "host", ">", "5"⟩) := by
  have h := (c5_distinct_count_substitution
    ⟨.count, "count", some "uid", some "host", ">", "5"⟩ rfl (by decide)).1 "host" rfl
  exact ⟨h.1.trans rfl, h.2.trans rfl⟩

/-- C6 counterexample: rendering a grouped `count` aggregation with
`SplunkBackend` does not leave the aggregation spec unchanged — the call
overwrites its `aggfunc_notrans` field with `dc`. -/
theorem c6_counterexample :
    SplunkBackend.generateAggregation (some ⟨.count, "count", some "uid", some "host", ">", "5"⟩) =
      .ok (" | stats dc(uid) as val by host | search val > 5",
        some ⟨.count, "dc", some "uid", some "host", ">", "5"⟩) ∧
    (⟨.count, "dc", some "uid", some "host", ">", "5"⟩ : AggregationSpec) ≠
      ⟨.count, "count", some "uid", some "host", ">", "5"⟩ := by
  exact ⟨rfl, by decide⟩

/-- C6 (amended): rendering mutates no input except in one case.  The XML
backend's aggregation rendering always returns the spec unchanged; the
plain Splunk backend returns it unchanged unless the function is `count`
with a group field present, in which case exactly the `aggfunc_notrans`
field is overwritten with `dc`. -/
theorem c6_amended :
    (∀ (agg : AggregationSpec) s a',
      SplunkXMLBackend.generateAggregation (some agg) = .ok (s, a') → a' = some agg) ∧
    (∀ (agg : AggregationSpec) s a',
      (agg.aggfunc_notrans ≠ "count" ∨ agg.groupfield = none) →
      SplunkBackend.generateAggregation (some agg) = .ok (s, a') → a' = some agg) ∧
    (∀ (agg : AggregationSpec) g, agg.groupfield = some g → agg.aggfunc_notrans = "count" →
      agg.aggfunc ≠ .near →
      (SplunkBackend.generateAggregation (some agg)).map Prod.snd =
        .ok (some ⟨agg.aggfunc, "dc", agg.aggfield, agg.groupfield, agg.cond_op,
          agg.condition⟩)) := by
  refine ⟨?_, ?_, ?_⟩
  · intro agg s a' h
    by_cases hn : agg.aggfunc = .near
    · simp [SplunkXMLBackend.generateAggregation, hn] at h
      exact h.2.symm
    · cases hg : agg.groupfield with
      | none => simp [SplunkXMLBackend.generateAggregation, hn, hg] at h; exact h.2.symm
      | some g => simp [SplunkXMLBackend.generateAggregation, hn, hg] at h; exact h.2.symm
  · intro agg s a' hcase h
    by_cases hn : agg.aggfunc = .near
    · simp [SplunkBackend.generateAggregation, hn] at h
    · cases hg : agg.groupfield with
      | none => simp [SplunkBackend.generateAggregation, hn, hg] at h; exact h.2.symm
      | some g =>
        rcases hcase with hcount | hnone
        · simp [SplunkBackend.generateAggregation, hn, hg, hcount] at h
          exact h.2.symm
        · rw [hnone] at hg; cases hg
  · intro agg g hg hcount hn
    simp [SplunkBackend.generateAggregation, hn, hg, hcount, Except.map]

/-- C6 witness: the amended theorem's mutation case applied at a concrete
grouped count aggregation. -/
theorem c6_witness :
    (SplunkBackend.generateAggregation (some ⟨.count, "count", some "f", some "h", ">", "1"⟩)).map
      Prod.snd = .ok (some ⟨.count, "dc", some "f", some "h", ">", "1"⟩) :=
  c6_amended.2.2 ⟨.count, "count", some "f", some "h", ">", "1"⟩ "h" rfl rfl (by decide)

/-- Helper: a character of a replaced string either comes from the
replacement text or is an untouched character of the original. -/
theorem mem_replaceChar {x : Char} {s : String} {c : Char} {r : String}
    (h : x ∈ (replaceChar s c r).data) : x ∈ r.data ∨ (x ∈ s.data ∧ x ≠ c) := by
  have h' : x ∈ s.data.flatMap fun a => if a = c then r.data else [a] := h
  rw [List.mem_flatMap] at h'
  rcases h' with ⟨a, ha, hx⟩
  by_cases hac : a = c
  · rw [if_pos hac] at hx
    exact Or.inl hx
  · rw [if_neg hac] at hx
    rw [List.mem_singleton] at hx
    subst hx
    exact Or.inr ⟨ha, hac⟩

/-- C7: appending rule `R1` with query `q1`, then `R2` with `q2`, then
finalizing yields one document string: the document preamble, then `R1`'s
panel, then `R2`'s panel, then the document suffix — and the escaped query
text inside each panel contains no raw `<` or `>` character. -/
theorem c7_document_composition :
    (∀ n1 n2 q1 q2 : String,
      SplunkXMLBackend.finalize
        (SplunkXMLBackend.generate (SplunkXMLBackend.generate initState n1 [some q1]) n2
          [some q2]) =
      dash_pre ++ (panel_pre ++ n1 ++ panel_inf ++ escLtGt q1 ++ panel_suf) ++
        (panel_pre ++ n2 ++ panel_inf ++ escLtGt q2 ++ panel_suf) ++ dash_suf) ∧
    (∀ (q : String) (c : Char), c ∈ (escLtGt q).data → c ≠ '<' ∧ c ≠ '>') := by
  constructor
  · intro n1 n2 q1 q2
    simp [SplunkXMLBackend.generate, appendPanel, SplunkXMLBackend.finalize, initState,
      String.append_assoc]
  · intro q c hc
    have hlt : ∀ x ∈ "&lt;".data, x ≠ '<' ∧ x ≠ '>' := by decide
    have hgt : ∀ x ∈ "&gt;".data, x ≠ '<' ∧ x ≠ '>' := by decide
    rcases mem_replaceChar hc with h1 | ⟨h1, hne⟩
    · exact hgt c h1
    · rcases mem_replaceChar h1 with h2 | ⟨_, hne2⟩
      · exact hlt c h2
      · exact ⟨hne2, hne⟩

/-- C7 witness: the composition theorem applied at concrete rule names and
queries, and the escape property applied at a character of a concrete
escaped query. -/
theorem c7_witness :
    SplunkXMLBackend.finalize
      (SplunkXMLBackend.generate (SplunkXMLBackend.generate initState "R1" [some "q1"]) "R2"
        [some "q2"]) =
    dash_pre ++ (panel_pre ++ "R1" ++ panel_inf ++ escLtGt "q1" ++ panel_suf) ++
      (panel_pre ++ "R2" ++ panel_inf ++ escLtGt "q2" ++ panel_suf) ++ dash_suf ∧
    ('q' ≠ '<' ∧ 'q' ≠ '>') :=
  ⟨c7_document_composition.1 "R1" "R2" "q1" "q2",
   c7_document_composition.2 "q<1" 'q' (by decide)⟩

/-- C8: field projection resolves the requested fields in order, appending
a string mapping result as one column and splicing a list result in order,
and fails with `FieldMappingTypeError` exactly when some requested field
maps to neither a string nor a list; in particular `["a","b"]` with
`a ↦ "A"` and `b ↦ ["B1","B2"]` yields `["A","B1","B2"]`. -/
theorem c8_field_projection :
    (∀ (fields : List String) (m : String → Mapped),
      resolveColumns fields m =
        if fields.any (fun f => (m f).isOther) then .error .fieldMappingType
        else .ok (fields.flatMap fun f => (m f).columns)) ∧
    resolveColumns ["a", "b"]
      (fun f => if f = "a" then .mstr "A" else .mlist ["B1", "B2"]) = .ok ["A", "B1", "B2"] := by
  constructor
  · intro fields m
    induction fields with
    | nil => rfl
    | cons f rest ih =>
      cases hm : m f with
      | mstr s =>
        rw [resolveColumns, hm, ih]
        simp only [List.any_cons, List.flatMap_cons, hm]
        rw [show Mapped.isOther (Mapped.mstr s) = false from rfl,
          show Mapped.columns (Mapped.mstr s) = [s] from rfl, Bool.false_or]
        by_cases h : (rest.any fun x => (m x).isOther) = true
        · rw [if_pos h, if_pos h]
          rfl
        · rw [if_neg h, if_neg h]
          rfl
      | mlist l =>
        rw [resolveColumns, hm, ih]
        simp only [List.any_cons, List.flatMap_cons, hm]
        rw [show Mapped.isOther (Mapped.mlist l) = false from rfl,
          show Mapped.columns (Mapped.mlist l) = l from rfl, Bool.false_or]
        by_cases h : (rest.any fun x => (m x).isOther) = true
        · rw [if_pos h, if_pos h]
          rfl
        · rw [if_neg h, if_neg h]
          rfl
      | mother =>
        have hcond : ((f :: rest).any fun x => (m x).isOther) = true := by
          simp [List.any_cons, hm, Mapped.isOther]
        rw [if_pos hcond, resolveColumns, hm]
  · rfl

/-- C10: appending a panel inserts the rule name into the buffer verbatim
(only the query text goes through the entity escaper), so a rule name
containing `<` appears unescaped in the document, even though escaping
would have altered it. -/
theorem c10_rule_name_verbatim :
    (∀ (st : XMLState) (n q : String),
      SplunkXMLBackend.generate st n [some q] =
        ⟨st.queries ++ panel_pre ++ n ++ panel_inf ++ escLtGt q ++ panel_suf⟩) ∧
    escLtGt "a<b" ≠ "a<b" ∧
    (SplunkXMLBackend.generate initState "a<b" [some "x"]).queries =
      dash_pre ++ panel_pre ++ "a<b" ++ panel_inf ++ "x" ++ panel_suf := by
  refine ⟨fun st n q => rfl, by decide, rfl⟩

end Sigma2Splunk
